import Mathlib

/-!
Verification development for the ASql::MySQL layer of fastcgipp
(src/include/asql/mysql.hpp).

The repository ships only the header `mysql.hpp`, which declares the
`Connection`, `Statement`, `TypedConversion` and `Error` entities and
carries their documentation; the member-function bodies (apart from the
inline constructors, destructor and `queue`) live in a `mysql.cpp`
translation unit that is not part of the sources.  Wherever a definition
below embeds such a missing body, its doc comment starts with
`Modelled from the spec:` and the definition follows the specification's
description of that operation; everything else is translated directly
from the header.
-/

namespace ASql
namespace MySQL

/-! ## Record descriptors and statement preparation -/

/-- Semantic field types indexable in a `Data::Set` record descriptor, as
enumerated by the conversion machinery of the header: fixed-width scalars
bind directly, while `Blob`, `Text`, `Wtext`, `Date`, `Time` and `Datetime`
go through a `TypedConversion`. -/
inductive FieldType
  | tinyInt
  | shortInt
  | intType
  | bigInt
  | floatType
  | doubleType
  | date
  | time
  | datetime
  | blob
  | text
  | wtext
deriving DecidableEq, Repr

/-- Number of placeholder markers in a query text: the count of literal
question-mark characters, per the header's documentation of `init`
("The number of question marks in the query should match up exactly with
the value returned by a call of numberOfSqlElements() on parameterSet"). -/
def countPlaceholders (query : String) : Nat :=
  query.toList.countP (fun c => c == '?')

/-- `ASql::Data::Set::numberOfSqlElements` applied through the nullable
template-set pointer of `Statement::init`: a null descriptor pointer means
no parameter/result data, hence zero wire placeholders/columns. -/
def numberOfSqlElements : Option (List FieldType) → Nat
  | none => 0
  | some s => s.length

/-- A prepared query as the server sees it: its text and the number of
result columns it returns.  The model quantifies over queries the server
accepts; a query the server rejects never reaches count validation. -/
structure Query where
  text : String
  resultColumns : Nat
deriving DecidableEq, Repr

/-- The statement-build-time failure taxonomy of the spec's
`StatementPrepareError`: the declared field counts mismatch the actual
placeholder/column counts. -/
inductive StatementPrepareError
  | paramCountMismatch (placeholders : Nat) (fields : Nat)
  | resultCountMismatch (columns : Nat) (fields : Nat)
deriving DecidableEq, Repr

/-- The compiled statement state produced by a successful `init`: the
query together with the two descriptors whose binding arrays and
conversion tables are kept for the statement's lifetime. -/
structure PreparedStatement where
  query : Query
  parameterFields : Option (List FieldType)
  resultFields : Option (List FieldType)
deriving DecidableEq, Repr

/-- Modelled from the spec: `ASql::MySQL::Statement::init` is declared at
mysql.hpp line 169 but its body (in `mysql.cpp`) is absent from the
sources.  Per the spec section 4.2, `init` compiles the statement text,
validates placeholder/column counts, and fails with a
`StatementPrepareError` when the declared field counts mismatch the
actual placeholder/column counts.  The full constructor simply delegates
to `init` (mysql.hpp line 140). -/
def init (q : Query) (parameterSet resultSet : Option (List FieldType)) :
    Except StatementPrepareError PreparedStatement :=
  if countPlaceholders q.text ≠ numberOfSqlElements parameterSet then
    Except.error (StatementPrepareError.paramCountMismatch
      (countPlaceholders q.text) (numberOfSqlElements parameterSet))
  else if q.resultColumns ≠ numberOfSqlElements resultSet then
    Except.error (StatementPrepareError.resultCountMismatch
      q.resultColumns (numberOfSqlElements resultSet))
  else
    Except.ok ⟨q, parameterSet, resultSet⟩

/-! ## Temporal conversions -/

/-- `ASql::Data::Datetime`: the application-side calendar date plus
time-of-day record. -/
structure Datetime where
  year : Nat
  month : Nat
  day : Nat
  hour : Nat
  minute : Nat
  second : Nat
deriving DecidableEq, Repr

/-- `ASql::Data::Date`: application-side calendar date only. -/
structure Date where
  year : Nat
  month : Nat
  day : Nat
deriving DecidableEq, Repr

/-- `ASql::Data::Time`: application-side time-of-day only. -/
structure Time where
  hour : Nat
  minute : Nat
  second : Nat
deriving DecidableEq, Repr

/-- The wire-side `MYSQL_TIME` struct of numeric components, the
`internal` member of `TypedConversion<Data::Datetime>` (mysql.hpp
line 384). -/
structure MYSQL_TIME where
  year : Nat
  month : Nat
  day : Nat
  hour : Nat
  minute : Nat
  second : Nat
deriving DecidableEq, Repr

/-- Modelled from the spec: `TypedConversion<Data::Datetime>::convertParam`
(mysql.hpp line 392, body absent) converts the application `Datetime`
pointed to by `external` into the wire struct `internal`, field by field. -/
def datetimeConvertParam (d : Datetime) : MYSQL_TIME :=
  ⟨d.year, d.month, d.day, d.hour, d.minute, d.second⟩

/-- Modelled from the spec: `TypedConversion<Data::Datetime>::convertResult`
(mysql.hpp line 388, body absent) converts the wire struct `internal` into
the application `Datetime`, field by field. -/
def datetimeConvertResult (t : MYSQL_TIME) : Datetime :=
  ⟨t.year, t.month, t.day, t.hour, t.minute, t.second⟩

/-- Modelled from the spec: `TypedConversion<Data::Date>::convertParam`
(mysql.hpp line 413, body absent); the `Date` specialization zeroes the
time-of-day half of the wire struct, that half being irrelevant to it. -/
def dateConvertParam (d : Date) : MYSQL_TIME :=
  ⟨d.year, d.month, d.day, 0, 0, 0⟩

/-- Modelled from the spec: `TypedConversion<Data::Date>::convertResult`
(mysql.hpp line 409, body absent); reads only the calendar-date half of
the wire struct, ignoring the time-of-day half. -/
def dateConvertResult (t : MYSQL_TIME) : Date :=
  ⟨t.year, t.month, t.day⟩

/-- Modelled from the spec: `TypedConversion<Data::Time>::convertParam`
(mysql.hpp line 428, body absent); the `Time` specialization zeroes the
calendar-date half of the wire struct, that half being irrelevant to it. -/
def timeConvertParam (t : Time) : MYSQL_TIME :=
  ⟨0, 0, 0, t.hour, t.minute, t.second⟩

/-- Modelled from the spec: `TypedConversion<Data::Time>::convertResult`
(mysql.hpp line 424, body absent); reads only the time-of-day half of the
wire struct, ignoring the calendar-date half. -/
def timeConvertResult (m : MYSQL_TIME) : Time :=
  ⟨m.hour, m.minute, m.second⟩

/-- Recombination of a calendar date and a time-of-day into one
`Datetime`, used to state the temporal-split property. -/
def combineDateTime (d : Date) (t : Time) : Datetime :=
  ⟨d.year, d.month, d.day, t.hour, t.minute, t.second⟩

/-! ## Variable-length two-phase fetch -/

/-- Modelled from the spec: after a row fetch, the wire layer writes the
actual length of a variable-length column into the binding's length slot
(the `length` member of `TypedConversion`, mysql.hpp line 325), reporting
truncation rather than allocating on demand. -/
def reportLength (wire : List Nat) : Nat := wire.length

/-- Modelled from the spec: `mysql_stmt_fetch_column` copies at most the
bound buffer's capacity many bytes of the column payload into the
converter's buffer. -/
def fetchColumn (wire : List Nat) (capacity : Nat) : List Nat :=
  wire.take capacity

/-- The mutable state of a variable-length `TypedConversion<T>`: the
capacity of the working buffer its binding currently points at. -/
structure VarConversion where
  bufferCapacity : Nat
deriving DecidableEq, Repr

/-- Modelled from the spec: `TypedConversion<T>::grabIt` (mysql.hpp
line 373, body absent) performs the two-phase fetch — first learn the
actual length reported by the wire layer, then grow the buffer to that
length and fetch the payload into it ("Size will be adjusted"). -/
def grabIt (_conv : VarConversion) (wire : List Nat) :
    VarConversion × List Nat :=
  let actual := reportLength wire
  let grown : VarConversion := ⟨actual⟩
  (grown, fetchColumn wire grown.bufferCapacity)

/-! ## Wide-text code conversion (utf-8) -/

/-- Modelled from the spec: the application-to-wire direction of
`TypedConversion<Data::Wtext>` transcodes each wide code point into its
utf-8 byte sequence (mysql.hpp line 432: "Handle retrieval and code
conversion of utf-8 textual data"). -/
def utf8EncodeCp (c : Nat) : List Nat :=
  if c < 128 then [c]
  else if c < 2048 then [192 + c / 64, 128 + c % 64]
  else if c < 65536 then [224 + c / 4096, 128 + c / 64 % 64, 128 + c % 64]
  else [240 + c / 262144, 128 + c / 4096 % 64, 128 + c / 64 % 64, 128 + c % 64]

/-- Modelled from the spec: utf-8 encoding of a whole wide string, code
point by code point, into the conversion buffer. -/
def utf8Encode : List Nat → List Nat
  | [] => []
  | c :: cs => utf8EncodeCp c ++ utf8Encode cs

/-- Modelled from the spec: the byte-level state of the utf-8 decoder —
`utf8Run bytes pending acc` consumes the byte stream with `pending`
continuation bytes still expected for the code point accumulated so far
in `acc`.  A lead byte sets the expected length; each continuation byte
must have the high bits `10`; any violation is a code-conversion
failure, modelled as `none`. -/
def utf8Run : List Nat → Nat → Nat → Option (List Nat)
  | [], 0, _ => some []
  | [], _ + 1, _ => none
  | b :: rest, 0, _ =>
    if b < 128 then (utf8Run rest 0 0).map (fun cs => b :: cs)
    else if b < 192 then none
    else if b < 224 then utf8Run rest 1 (b - 192)
    else if b < 240 then utf8Run rest 2 (b - 224)
    else if b < 248 then utf8Run rest 3 (b - 240)
    else none
  | b :: rest, p + 1, acc =>
    if b / 64 = 2 then
      if p = 0 then
        (utf8Run rest 0 0).map (fun cs => (acc * 64 + (b - 128)) :: cs)
      else utf8Run rest p (acc * 64 + (b - 128))
    else none

/-- Modelled from the spec: the wire-to-application direction of
`TypedConversion<Data::Wtext>::convertResult` code-converts the fetched
utf-8 bytes back into wide code points; an invalid byte sequence is a
conversion failure (`CodeConversionErrorMsg`), modelled as `none`. -/
def utf8Decode (l : List Nat) : Option (List Nat) := utf8Run l 0 0

/-! ## The per-type converters as one closed family -/

/-- A value of one of the field types that require a converter (the
`TypedConversion` family of the header): variable-length blobs and narrow
text, the three temporal kinds, and wide transcoded text. -/
inductive Value
  | blob (bytes : List Nat)
  | text (bytes : List Nat)
  | datetime (d : Datetime)
  | date (d : Date)
  | time (t : Time)
  | wtext (codepoints : List Nat)
deriving DecidableEq, Repr

/-- The wire representation a converter exchanges with the binding layer:
a raw byte buffer or a `MYSQL_TIME` struct. -/
inductive WireData
  | bytes (bs : List Nat)
  | timeStruct (t : MYSQL_TIME)
deriving DecidableEq, Repr

/-- The converter kind of a value, selecting which `TypedConversion`
specialization handles it. -/
inductive ConvKind
  | blob
  | text
  | datetime
  | date
  | time
  | wtext
deriving DecidableEq, Repr

/-- The converter kind handling each value. -/
def convKindOf : Value → ConvKind
  | .blob _ => .blob
  | .text _ => .text
  | .datetime _ => .datetime
  | .date _ => .date
  | .time _ => .time
  | .wtext _ => .wtext

/-- Modelled from the spec: the parameter-direction conversion
(`convertParam` / `toWire`) of each `TypedConversion` specialization —
variable-length payloads bind their bytes directly (the converter
supplies the pointer/length at bind time), temporal values fill the
internal `MYSQL_TIME`, and wide text is transcoded to utf-8 bytes. -/
def toWire : Value → WireData
  | .blob bs => .bytes bs
  | .text bs => .bytes bs
  | .datetime d => .timeStruct (datetimeConvertParam d)
  | .date d => .timeStruct (dateConvertParam d)
  | .time t => .timeStruct (timeConvertParam t)
  | .wtext cs => .bytes (utf8Encode cs)

/-- Modelled from the spec: the result-direction conversion
(`convertResult` / `fromWire`) of each `TypedConversion` specialization —
variable-length payloads are retrieved by the two-phase `grabIt` fetch,
temporal values are read out of the internal `MYSQL_TIME`, and wide text
is fetched then code-converted back from utf-8.  A wire shape not
matching the converter kind, or an invalid utf-8 sequence, is a
conversion failure. -/
def fromWire : ConvKind → WireData → Option Value
  | .blob, .bytes bs => some (.blob (grabIt ⟨0⟩ bs).2)
  | .text, .bytes bs => some (.text (grabIt ⟨0⟩ bs).2)
  | .datetime, .timeStruct t => some (.datetime (datetimeConvertResult t))
  | .date, .timeStruct t => some (.date (dateConvertResult t))
  | .time, .timeStruct t => some (.time (timeConvertResult t))
  | .wtext, .bytes bs => (utf8Decode (grabIt ⟨0⟩ bs).2).map Value.wtext
  | _, _ => none

/-- The domain of each supported type: byte payloads and temporal records
are unconstrained; wide text consists of Unicode code points. -/
def validValue : Value → Prop
  | .wtext cs => ∀ c ∈ cs, c < 1114112
  | _ => True

instance : DecidablePred validValue := fun v =>
  match v with
  | .blob _ => isTrue trivial
  | .text _ => isTrue trivial
  | .datetime _ => isTrue trivial
  | .date _ => isTrue trivial
  | .time _ => isTrue trivial
  | .wtext cs => inferInstanceAs (Decidable (∀ c ∈ cs, c < 1114112))

/-! ## Errors, invocations and the per-connection worker -/

/-- A statement-level failure as reported by the database at the moment
of failure: numeric code and message text. -/
structure StmtError where
  code : Nat
  message : String
deriving DecidableEq, Repr

/-- The `ASql::Error` value delivered to a completion callback: the
success sentinel, or a populated statement-level error. -/
inductive ErrorValue
  | success
  | failure (e : StmtError)
deriving DecidableEq, Repr

/-- Whether an Error Value is populated (carries an actual error). -/
def ErrorValue.populated : ErrorValue → Bool
  | .success => false
  | .failure _ => true

/-- Modelled from the spec: a Queued Invocation bundled by
`Statement::queue` (mysql.hpp line 228) — identified here by an id, and
carrying the outcome its execution will have (`none` when the execution
succeeds, a statement error otherwise). -/
structure Invocation where
  id : Nat
  outcome : Option StmtError
deriving DecidableEq, Repr

/-- One firing of a completion callback: which invocation it belongs to
and the Error Value passed as the callback's argument. -/
structure CallbackEvent where
  invocationId : Nat
  arg : ErrorValue
deriving DecidableEq, Repr

/-- Modelled from the spec: a worker thread runs the Statement Executor
for one invocation, constructs an Error Value (success sentinel on
success, populated error on failure), and invokes the callback with it —
once. -/
def processInvocation (inv : Invocation) : CallbackEvent :=
  match inv.outcome with
  | none => ⟨inv.id, ErrorValue.success⟩
  | some e => ⟨inv.id, ErrorValue.failure e⟩

/-- Modelled from the spec: with no worker contention a single worker
drains the connection's FIFO front to back, firing each invocation's
callback before popping the next. -/
def workerLoop : List Invocation → List CallbackEvent
  | [] => []
  | inv :: rest => processInvocation inv :: workerLoop rest

/-- An execution schedule for invocations of two distinct connections:
any interleaving of the two FIFOs, since workers of different
connections run independently. -/
inductive Interleaving : List Invocation → List Invocation → List Invocation → Prop
  | nil : Interleaving [] [] []
  | left {x xs ys zs} : Interleaving xs ys zs → Interleaving (x :: xs) ys (x :: zs)
  | right {y xs ys zs} : Interleaving xs ys zs → Interleaving xs (y :: ys) (y :: zs)

/-! ## The Statement Executor -/

/-- A decoded result row. -/
abbrev Row := List Value

/-- Modelled from the spec: the observable behaviour of the wire protocol
for one execution of a prepared statement — whether the bind/send/execute
stage fails, the successive row-fetch outcomes, and the auxiliary
last-insert-id and found-rows counters. -/
structure WireScript where
  execError : Option StmtError
  fetches : List (Except StmtError Row)
  insertId : Nat
  foundRows : Nat
deriving Repr

/-- The storage visible to `Statement::execute`: the caller-supplied
parameter record, the converters' internal buffers, the result sink, and
the optional insertId/rows output slots. -/
structure ExecState where
  parameters : Option (List Value)
  converterBuffers : List WireData
  sink : List Row
  insertIdSlot : Option Nat
  rowsSlot : Option Nat
deriving Repr

/-- Modelled from the spec: `Statement::executeParameters` (mysql.hpp
line 297, body absent) re-binds the parameter bindings and runs every
parameter converter's `toWire()`, writing into the converters' internal
buffers; it reads, and never writes, the parameter record. -/
def executeParameters (st : ExecState) : ExecState :=
  match st.parameters with
  | none => st
  | some ps => { st with converterBuffers := ps.map toWire }

/-- Modelled from the spec: the fetch loop — fetch one row at a time,
decode it, and stop when the server reports no more rows; a failing fetch
ends the loop with the rows decoded so far and the error. -/
def fetchLoop : List (Except StmtError Row) → List Row × Option StmtError
  | [] => ([], none)
  | Except.ok r :: rest =>
    let p := fetchLoop rest
    (r :: p.1, p.2)
  | Except.error e :: _ => ([], some e)

/-- Modelled from the spec: the synchronous `Statement::execute`
(mysql.hpp line 190, body absent).  Parameters are encoded into the
converter buffers; a fatal failure at the bind/send stage or during the
fetch loop surfaces as a `StatementExecuteError` raised to the caller
with no partial rows appended to the sink; on success the decoded rows
are appended and the requested insertId/rows output slots written. -/
def execute (st : ExecState) (script : WireScript)
    (wantInsertId wantRows : Bool) : ExecState × Except StmtError Unit :=
  let st1 := executeParameters st
  match script.execError with
  | some e => (st1, Except.error e)
  | none =>
    match fetchLoop script.fetches with
    | (_, some e) => (st1, Except.error e)
    | (rows, none) =>
      let st2 := { st1 with sink := st1.sink ++ rows }
      let st3 :=
        if wantInsertId then { st2 with insertIdSlot := some script.insertId }
        else st2
      let st4 :=
        if wantRows then { st3 with rowsSlot := some script.foundRows }
        else st3
      (st4, Except.ok ())

/-- Modelled from the spec: the asynchronous path — a worker thread runs
the same pipeline writing rows directly into the shared result sink, so a
failure mid-fetch leaves the sink in whatever partial state the fetch
loop reached; all failures are funneled into the Error Value delivered to
the callback, never thrown across the worker boundary. -/
def asyncRun (st : ExecState) (script : WireScript)
    (wantInsertId wantRows : Bool) : ExecState × ErrorValue :=
  let st1 := executeParameters st
  match script.execError with
  | some e => (st1, ErrorValue.failure e)
  | none =>
    match fetchLoop script.fetches with
    | (rows, some e) =>
      ({ st1 with sink := st1.sink ++ rows }, ErrorValue.failure e)
    | (rows, none) =>
      let st2 := { st1 with sink := st1.sink ++ rows }
      let st3 :=
        if wantInsertId then { st2 with insertIdSlot := some script.insertId }
        else st2
      let st4 :=
        if wantRows then { st3 with rowsSlot := some script.foundRows }
        else st3
      (st4, ErrorValue.success)

/-- A primitive wire operation logged by the single-row variant, to
count how many row fetches it performs. -/
inductive FetchOp
  | rowFetch
deriving DecidableEq, Repr

/-- Modelled from the spec: `Statement::executeResult` (mysql.hpp
line 306, body absent) performs one `mysql_stmt_fetch` — "true normally,
false if no data" — returning the row when that single fetch produced
one, together with the log of fetch operations performed. -/
def executeResult (fetches : List (Except StmtError Row)) :
    Option Row × List FetchOp :=
  (match fetches.head? with
   | some (Except.ok r) => some r
   | _ => none,
   [FetchOp.rowFetch])

/-- Modelled from the spec: the single-row `execute` variant (mysql.hpp
line 209, body absent) — encode parameters, perform exactly one row
fetch via `executeResult`, store the row if one was produced, and report
whether one was (its boolean return). -/
def executeSingle (st : ExecState) (script : WireScript) :
    (ExecState × Bool) × List FetchOp :=
  let st1 := executeParameters st
  match executeResult script.fetches with
  | (some row, ops) => (({ st1 with sink := [row] }, true), ops)
  | (none, ops) => ((st1, false), ops)

/-! ## Statement destruction (inline in the header) -/

/-- A `MYSQL_STMT*` handle; `none` models the null pointer the simple
constructor stores (mysql.hpp line 147: `Statement(Connection&):
stmt(0)`). -/
abbrev StmtHandle := Option Nat

/-- The handle held by a `Statement` built with the simple constructor and
never passed through `init`: the null pointer. -/
def simpleConstructorStmt : StmtHandle := none

/-- Observable actions a `Statement` destructor body can perform. -/
inductive DtorAction
  | mysqlStmtClose (handle : StmtHandle)
deriving DecidableEq, Repr

/-- Direct translation of mysql.hpp line 148:
`~Statement() { mysql_stmt_close(stmt); }` — the destructor body is a
single unconditional call on the stored handle, with no null check and no
other branch. -/
def destructorActions (stmt : StmtHandle) : List DtorAction :=
  [DtorAction.mysqlStmtClose stmt]

/-! ## Theorems -/

/-- Claim C1: building a Statement (via the full constructor or `init`)
succeeds iff the number of placeholder markers in the query text equals
the parameter descriptor's field count and the number of result columns
equals the result descriptor's field count; any violation fails at
build time with a `StatementPrepareError` (the error type of `init`),
never as a later runtime error. -/
theorem init_ok_iff_counts_match (q : Query)
    (parameterSet resultSet : Option (List FieldType)) :
    ((∃ s, init q parameterSet resultSet = Except.ok s) ↔
      (countPlaceholders q.text = numberOfSqlElements parameterSet ∧
       q.resultColumns = numberOfSqlElements resultSet)) ∧
    ((∃ e, init q parameterSet resultSet = Except.error e) ↔
      ¬(countPlaceholders q.text = numberOfSqlElements parameterSet ∧
        q.resultColumns = numberOfSqlElements resultSet)) := by
  unfold init
  by_cases h1 : countPlaceholders q.text = numberOfSqlElements parameterSet <;>
    by_cases h2 : q.resultColumns = numberOfSqlElements resultSet <;>
    simp [h1, h2]

/-- Claim C4: decomposing a `Datetime` through the `Date` specialization
and the `Time` specialization of the `Datetime` conversion and recombining
the two results reconstructs the original calendar date and time-of-day
exactly. -/
theorem datetime_split_roundtrip (dt : Datetime) :
    combineDateTime
      (dateConvertResult (datetimeConvertParam dt))
      (timeConvertResult (datetimeConvertParam dt)) = dt := rfl

/-- Claim C3: for every variable-length byte payload — in particular one
of length 0, one of length 1, and one longer than the converter's current
buffer capacity — the two-phase fetch (learn the actual length, grow the
buffer to it, fetch the payload) decodes exactly the original byte
sequence, and the grown buffer capacity equals the payload length. -/
theorem grabIt_two_phase_exact (conv : VarConversion) (wire : List Nat) :
    (grabIt conv wire).2 = wire ∧
      (grabIt conv wire).1.bufferCapacity = wire.length := by
  constructor
  · simp [grabIt, fetchColumn, reportLength]
  · rfl

/-- Claim C10: the destructor's body is exactly one unconditional
`mysql_stmt_close` call on the stored handle — it has no null check and
no invalid-handle error branch to reach — and a Statement made by the
simple constructor and never initialized holds the null handle, so its
destruction passes the null pointer to `mysql_stmt_close` and performs
nothing else. -/
theorem destructor_unconditional_close :
    (∀ h : StmtHandle, destructorActions h = [DtorAction.mysqlStmtClose h]) ∧
    destructorActions simpleConstructorStmt =
      [DtorAction.mysqlStmtClose none] := by
  exact ⟨fun h => rfl, rfl⟩

/-- Helper: decoding the utf-8 encoding of one Unicode code point, in
front of any byte tail, recovers the code point and continues on the
tail. -/
theorem utf8Run_encodeCp (c : Nat) (hc : c < 1114112) (bs : List Nat) :
    utf8Run (utf8EncodeCp c ++ bs) 0 0 =
      (utf8Run bs 0 0).map (fun cs => c :: cs) := by
  by_cases h1 : c < 128
  · have e1 : utf8EncodeCp c = [c] := by
      unfold utf8EncodeCp; rw [if_pos h1]
    rw [e1, List.cons_append, List.nil_append]
    simp only [utf8Run]
    rw [if_pos h1]
  · by_cases h2 : c < 2048
    · have e1 : utf8EncodeCp c = [192 + c / 64, 128 + c % 64] := by
        unfold utf8EncodeCp; rw [if_neg h1, if_pos h2]
      rw [e1]
      have ha1 : ¬ (192 + c / 64 < 128) := by omega
      have ha2 : ¬ (192 + c / 64 < 192) := by omega
      have ha3 : 192 + c / 64 < 224 := by omega
      have hb1 : (128 + c % 64) / 64 = 2 := by omega
      simp [utf8Run, ha1, ha2, ha3, hb1]
      congr 1
      funext cs
      congr 1
      omega
    · by_cases h3 : c < 65536
      · have e1 : utf8EncodeCp c =
            [224 + c / 4096, 128 + c / 64 % 64, 128 + c % 64] := by
          unfold utf8EncodeCp; rw [if_neg h1, if_neg h2, if_pos h3]
        rw [e1]
        have ha1 : ¬ (224 + c / 4096 < 128) := by omega
        have ha2 : ¬ (224 + c / 4096 < 192) := by omega
        have ha3 : ¬ (224 + c / 4096 < 224) := by omega
        have ha4 : 224 + c / 4096 < 240 := by omega
        have hb1 : (128 + c / 64 % 64) / 64 = 2 := by omega
        have hb2 : (128 + c % 64) / 64 = 2 := by omega
        simp [utf8Run, ha1, ha2, ha3, ha4, hb1, hb2]
        congr 1
        funext cs
        congr 1
        omega
      · have e1 : utf8EncodeCp c =
            [240 + c / 262144, 128 + c / 4096 % 64,
              128 + c / 64 % 64, 128 + c % 64] := by
          unfold utf8EncodeCp; rw [if_neg h1, if_neg h2, if_neg h3]
        rw [e1]
        have ha1 : ¬ (240 + c / 262144 < 128) := by omega
        have ha2 : ¬ (240 + c / 262144 < 192) := by omega
        have ha3 : ¬ (240 + c / 262144 < 224) := by omega
        have ha4 : ¬ (240 + c / 262144 < 240) := by omega
        have ha5 : 240 + c / 262144 < 248 := by omega
        have hb1 : (128 + c / 4096 % 64) / 64 = 2 := by omega
        have hb2 : (128 + c / 64 % 64) / 64 = 2 := by omega
        have hb3 : (128 + c % 64) / 64 = 2 := by omega
        simp [utf8Run, ha1, ha2, ha3, ha4, ha5, hb1, hb2, hb3]
        congr 1
        funext cs
        congr 1
        omega

/-- Helper: utf-8 encoding followed by decoding is the identity on
strings of Unicode code points. -/
theorem utf8_roundtrip (cs : List Nat) (h : ∀ c ∈ cs, c < 1114112) :
    utf8Decode (utf8Encode cs) = some cs := by
  unfold utf8Decode
  induction cs with
  | nil => rfl
  | cons c rest ih =>
    simp only [utf8Encode]
    rw [utf8Run_encodeCp c (h c (List.mem_cons_self c rest)) (utf8Encode rest),
      ih (fun x hx => h x (List.mem_cons_of_mem c hx))]
    rfl

/-- Claim C2: for every supported converted field type and every value in
its domain (including empty byte sequences and zero-length text),
encoding via the type's parameter conversion (`toWire` / `convertParam`)
and immediately decoding the resulting wire data via the same type's
result conversion (`fromWire` / `convertResult`) yields a value equal to
the original. -/
theorem toWire_fromWire_roundtrip (v : Value) (hv : validValue v) :
    fromWire (convKindOf v) (toWire v) = some v := by
  cases v with
  | blob bs =>
    simp [convKindOf, toWire, fromWire, grabIt, fetchColumn, reportLength]
  | text bs =>
    simp [convKindOf, toWire, fromWire, grabIt, fetchColumn, reportLength]
  | datetime d => rfl
  | date d => rfl
  | time t => rfl
  | wtext cs =>
    simp only [convKindOf, toWire, fromWire]
    have h2 : (grabIt ⟨0⟩ (utf8Encode cs)).2 = utf8Encode cs := by
      simp [grabIt, fetchColumn, reportLength]
    rw [h2, utf8_roundtrip cs hv]
    rfl

/-- Witness for C2 at a concrete wide-text value holding code points of
all four utf-8 byte lengths. -/
theorem toWire_fromWire_roundtrip_witness :
    validValue (Value.wtext [65, 955, 20013, 128169]) ∧
    fromWire (convKindOf (Value.wtext [65, 955, 20013, 128169]))
        (toWire (Value.wtext [65, 955, 20013, 128169])) =
      some (Value.wtext [65, 955, 20013, 128169]) :=
  ⟨by decide, toWire_fromWire_roundtrip (Value.wtext [65, 955, 20013, 128169]) (by decide)⟩

/-- Claim C5: invocations enqueued on the same connection (no worker
contention) execute and fire their callbacks in exactly FIFO enqueue
order — stated for every queue, hence for I1, I2, I3 — while invocations
of different connections have no relative ordering guarantee: two valid
execution schedules of the same two connection FIFOs can fire the
cross-connection callbacks in different relative orders. -/
theorem fifo_callback_order :
    (∀ queue : List Invocation,
      (workerLoop queue).map CallbackEvent.invocationId =
        queue.map Invocation.id) ∧
    (∃ qA qB s1 s2 : List Invocation,
      Interleaving qA qB s1 ∧ Interleaving qA qB s2 ∧
      (workerLoop s1).map CallbackEvent.invocationId ≠
        (workerLoop s2).map CallbackEvent.invocationId) := by
  constructor
  · intro queue
    induction queue with
    | nil => rfl
    | cons inv rest ih =>
      simp only [workerLoop, List.map_cons, ih]
      cases h : inv.outcome <;> simp [processInvocation, h]
  · refine ⟨[⟨0, none⟩], [⟨1, none⟩], [⟨0, none⟩, ⟨1, none⟩],
      [⟨1, none⟩, ⟨0, none⟩], ?_, ?_, ?_⟩
    · exact Interleaving.left (Interleaving.right Interleaving.nil)
    · exact Interleaving.right (Interleaving.left Interleaving.nil)
    · decide

/-- Claim C6: every accepted invocation receives its completion callback
exactly once — the callbacks carrying a given id are exactly as many as
the accepted invocations carrying that id, never zero and never more —
and the callback's argument is the success sentinel precisely when the
execution succeeded, a populated Error Value precisely when it failed. -/
theorem callback_exactly_once :
    (∀ (queue : List Invocation) (i : Nat),
      ((workerLoop queue).filter (fun ev => ev.invocationId == i)).length =
        (queue.filter (fun inv => inv.id == i)).length) ∧
    (∀ inv : Invocation,
      (processInvocation inv).invocationId = inv.id ∧
      ((processInvocation inv).arg = ErrorValue.success ↔
        inv.outcome = none) ∧
      (processInvocation inv).arg.populated = inv.outcome.isSome) := by
  constructor
  · intro queue i
    induction queue with
    | nil => rfl
    | cons inv rest ih =>
      have hid : (processInvocation inv).invocationId = inv.id := by
        cases h : inv.outcome <;> simp [processInvocation, h]
      simp only [workerLoop, List.filter_cons, hid]
      by_cases hi : inv.id == i <;> simp [hi, ih]
  · intro inv
    cases h : inv.outcome <;>
      simp [processInvocation, h, ErrorValue.populated]

/-- Claim C7: whatever the outcome of `Statement::execute` — success or
any failure — the caller-supplied parameter record is left unchanged;
only the converter buffers, the result sink and the optional
insertId/rows output slots are written.  The asynchronous run of the same
pipeline preserves it too. -/
theorem execute_preserves_parameters (st : ExecState) (script : WireScript)
    (wantInsertId wantRows : Bool) :
    ((execute st script wantInsertId wantRows).1).parameters =
      st.parameters ∧
    ((asyncRun st script wantInsertId wantRows).1).parameters =
      st.parameters := by
  have hp : (executeParameters st).parameters = st.parameters := by
    cases h : st.parameters <;> simp [executeParameters, h]
  constructor
  · unfold execute
    cases he : script.execError with
    | some e => simpa using hp
    | none =>
      cases hf : fetchLoop script.fetches with
      | mk rows err =>
        cases err <;>
          cases wantInsertId <;> cases wantRows <;> simp [hf, hp]
  · unfold asyncRun
    cases he : script.execError with
    | some e => simpa using hp
    | none =>
      cases hf : fetchLoop script.fetches with
      | mk rows err =>
        cases err <;>
          cases wantInsertId <;> cases wantRows <;> simp [hf, hp]

/-- Claim C8: a failed synchronous `execute` returns the error to the
caller with the result sink left completely unmodified — no partial rows
appended — while a failed asynchronous invocation may leave the shared
result sink in the partial state the fetch loop reached before failing,
as an explicit schedule exhibits. -/
theorem sync_failure_sink_unmodified :
    (∀ (st : ExecState) (script : WireScript)
        (wantInsertId wantRows : Bool) (e : StmtError),
      (execute st script wantInsertId wantRows).2 = Except.error e →
        ((execute st script wantInsertId wantRows).1).sink = st.sink) ∧
    (∃ (st : ExecState) (script : WireScript) (e : StmtError),
      (asyncRun st script false false).2 = ErrorValue.failure e ∧
      ((asyncRun st script false false).1).sink ≠ st.sink) := by
  constructor
  · intro st script wantInsertId wantRows e hfail
    have hs : (executeParameters st).sink = st.sink := by
      cases h : st.parameters <;> simp [executeParameters, h]
    have hcases : (execute st script wantInsertId wantRows).2 = Except.ok () ∨
        ((execute st script wantInsertId wantRows).1).sink = st.sink := by
      unfold execute
      cases script.execError with
      | some e2 => right; simpa using hs
      | none =>
        cases fetchLoop script.fetches with
        | mk rows err =>
          cases err with
          | some e2 => right; simpa using hs
          | none => left; rfl
    rcases hcases with hok | hsink
    · rw [hfail] at hok
      exact absurd hok (by simp)
    · exact hsink
  · exact ⟨⟨none, [], [], none, none⟩,
      ⟨none, [Except.ok [], Except.error ⟨5, "err"⟩], 0, 0⟩,
      ⟨5, "err"⟩, rfl, by decide⟩

/-- Witness for C8 at a concrete failing synchronous call: the execute
stage fails, the error reaches the caller, and the sink holding one
earlier row is untouched. -/
theorem sync_failure_sink_unmodified_witness :
    (execute ⟨none, [], [[Value.blob [7]]], none, none⟩
        ⟨some ⟨3, "gone"⟩, [], 0, 0⟩ false false).2 =
      Except.error ⟨3, "gone"⟩ ∧
    ((execute ⟨none, [], [[Value.blob [7]]], none, none⟩
        ⟨some ⟨3, "gone"⟩, [], 0, 0⟩ false false).1).sink =
      [[Value.blob [7]]] :=
  ⟨rfl,
    sync_failure_sink_unmodified.1
      ⟨none, [], [[Value.blob [7]]], none, none⟩
      ⟨some ⟨3, "gone"⟩, [], 0, 0⟩ false false ⟨3, "gone"⟩ rfl⟩

/-- Claim C9: the single-row `execute` variant performs exactly one row
fetch, and returns true precisely when that fetch produced a result row
(false when the query matched no rows). -/
theorem executeSingle_one_fetch (st : ExecState) (script : WireScript) :
    ((executeSingle st script).2).count FetchOp.rowFetch = 1 ∧
    ((executeSingle st script).1.2 = true ↔
      ∃ r, script.fetches.head? = some (Except.ok r)) := by
  unfold executeSingle executeResult
  cases h : script.fetches.head? with
  | none => simp
  | some f =>
    cases f with
    | ok r => simp
    | error e => simp

end MySQL
end ASql
